import Mathlib

/-!
Verification of the form-action layer of `grimoire`
(`src/routes/+page.server.ts`), a bookmark-manager web application.

The file shallowly embeds the eleven server actions over an explicit
database state.  External collaborators that are not part of the source
file (the drizzle ORM, `prepareTags`, `checkIfImageURL`, `createSlug`,
the `Storage` object store, `fetch`, `JSON.parse`, `handlePBError`) are
treated as opaque: pure helpers become function parameters, fallible
async calls become `Except` oracles supplied through an environment
record, so that every control path of the TypeScript body is represented.

Conventions of the embedding:
* a nullable column or a possibly-null `FormData` field is an `Option`;
* `new Date()` is an abstract tick `now : Nat`;
* a thrown JavaScript exception is `Except.error`; actions return
  `DB × Except JsErr Response`, the first component being the database
  state after the action (mutations persist even when an exception
  propagates, as in the source, which has no transactions);
* drizzle `update ... set` without `.where` rewrites every row;
  `.where(eq(col, v))` restricts to rows with that column equal to `v`;
  a `set` value that is JS `undefined` leaves the column unchanged
  (drizzle skips `undefined` entries);
* drizzle ignores `set` keys that name no column of the table.
-/

namespace Grimoire

/-- A thrown JavaScript exception, identified by an abstract tag. -/
inductive JsErr where
  | thrown (tag : String)
  deriving Repr, DecidableEq

/-- A parsed user-settings object: a JSON object seen as an association
list from setting name to value (`UserSettings` in the source). -/
abbrev Settings := List (String × String)

/-- The `settings` column of the user table.  The code reads it `as
string` and `JSON.parse`s it, but writes back a plain object, so the
column may hold either form. -/
inductive SettingsCol where
  | raw (s : String)
  | obj (o : Settings)
  deriving Repr, DecidableEq

/-- A row of `bookmarkSchema`.  Text columns are nullable (`FormData.get`
returns `null` for absent fields and the code inserts them untouched);
timestamps are abstract ticks. -/
structure BookmarkRow where
  id : Nat
  ownerId : Nat
  url : Option String
  author : Option String
  categoryId : Int
  title : Option String
  contentHtml : Option String
  contentPublishedDate : Option String
  contentText : Option String
  contentType : Option String
  description : Option String
  domain : Option String
  flagged : Option Nat
  iconUrl : Option String
  importance : Int
  mainImageUrl : Option String
  note : Option String
  mainImageId : Option Nat
  iconId : Option Nat
  read : Option Nat
  openedTimes : Option Int
  openedLast : Option Nat
  deriving Repr, DecidableEq

/-- A row of the bookmark-to-tag join table (`bookmarksToTagsSchema`). -/
structure BookmarkToTagRow where
  bookmarkId : Nat
  tagId : Nat
  deriving Repr, DecidableEq

/-- A row of `categorySchema`.  `publicAt` embeds the column the source
calls `public`. -/
structure CategoryRow where
  id : Nat
  name : Option String
  slug : String
  description : Option String
  icon : Option String
  color : Option String
  parent : Option Int
  archived : Option Nat
  publicAt : Option Nat
  owner : Nat
  initial : Bool
  created : Nat
  updated : Nat
  deriving Repr, DecidableEq

/-- A row of `userSchema` (only the columns this file touches). -/
structure UserRow where
  id : Nat
  settings : SettingsCol
  deriving Repr, DecidableEq

/-- The database state the actions read and write. -/
structure DB where
  bookmarks : List BookmarkRow
  bookmarksToTags : List BookmarkToTagRow
  categories : List CategoryRow
  users : List UserRow
  deriving Repr, DecidableEq

/-- The result object an action returns.  Fields a given action does not
mention are `none`: `deleteCategory`'s unauthorized branch, for example,
returns a bare `{ success: false }` with no `error` key. -/
structure Response where
  success : Bool
  error : Option String := none
  id : Option Nat := none
  bookmark : Option BookmarkRow := none
  deriving Repr, DecidableEq

/-- JS truthiness of `locals.user?.id`: `!owner` is true when the id is
absent (`undefined`) or `0`. -/
def jsFalsyId : Option Nat → Bool
  | none => true
  | some n => n == 0

/-- JS truthiness of a nullable string (`url && ...`): false for `null`
and for the empty string. -/
def jsTruthyStr : Option String → Bool
  | none => false
  | some s => !(s == "")

/-- JS `??` (nullish coalescing) on a nullable integer.  NB: in the
source expression `opened_times ?? 0 + 1` the `+` binds tighter than
`??`, so the default branch is `0 + 1`. -/
def jsNullish (o : Option Int) (d : Int) : Int :=
  o.getD d

/-- Drizzle `set` semantics for one column: a JS `undefined` value
(`none`) leaves the stored column value unchanged, a present value
overwrites it. -/
def patchVal (v : Option Nat) (old : Option Nat) : Option Nat :=
  match v with
  | some x => some x
  | none => old

/-- The parsed `parent` form field of the category actions: the result of
`JSON.parse` may be the string `'null'`, a number, or JSON `null`. -/
inductive ParentField where
  | strNull
  | num (v : Int)
  | nullv
  deriving Repr, DecidableEq

/-- The expression `parentValue === 'null' ? null : parentValue` after the
`parent?.value ? parent.value : parent` unwrapping. -/
def resolveParent : ParentField → Option Int
  | .strNull => none
  | .num v => some v
  | .nullv => none

/-- First-match association lookup, the JS property-access view of a
parsed JSON object. -/
def lookupKey : Settings → String → Option String
  | [], _ => none
  | (k, v) :: rest, key => if k = key then some v else lookupKey rest key

/-- JS object spread `{...obj, theme}`: every key of `obj` keeps its
value except `theme`, which is set (or appended) with value `t`.  Keys
keep their relative order, as in a JS object literal. -/
def mergeTheme (s : Settings) (t : String) : Settings :=
  if (lookupKey s "theme").isSome then
    s.map (fun p => if p.1 = "theme" then (p.1, t) else p)
  else
    s ++ [("theme", t)]

/-- The call `JSON.parse(settings as string)` with `p` the opaque JSON parser:
parsing an already-object column throws (its string coercion is not
JSON), modelled as `none`. -/
def settingsParse (p : String → Option Settings) : SettingsCol → Option Settings
  | .raw s => p s
  | .obj _ => none

/-- Modelled from the spec: `handlePBError` lives in `$lib/pb`, which is
not under `src/`; the spec says thrown errors are funnelled through this
shared helper and "converted to a generic failure response".  Only the
fact that it returns a response (rather than rethrowing) matters to the
claims below. -/
def handlePBError (e : JsErr) : Response :=
  { success := false, error := some (match e with | .thrown tag => tag) }

/-- An action's outcome: the database state it leaves behind together
with either the returned result object or a propagated exception. -/
abbrev ActionOut := DB × Except JsErr Response

/-- The unauthorized response of most actions:
`{ success: false, error: 'Unauthorized' }`. -/
def unauthorized : Response :=
  { success := false, error := some "Unauthorized" }

/-! ### `deleteBookmark` (lines 124-143)

Authorize, parse `id`, `delete ... where eq(bookmarkSchema.id, id)`,
return `{ id, success: true }`.  No ownership check between the
authorization and the delete. -/

def deleteBookmark (owner : Option Nat) (id : Nat) (db : DB) : ActionOut :=
  if jsFalsyId owner then
    (db, .ok unauthorized)
  else
    ({ db with bookmarks := db.bookmarks.filter (fun b => !(b.id == id)) },
     .ok { success := true, id := some id })

/-! ### `updateFlagged` / `updateImportance` / `updateRead`
(lines 229-289): authorize, parse `id` and the one field, update the one
column of the rows matching `id`. -/

def updateFlagged (now : Nat) (owner : Option Nat) (id : Nat)
    (flaggedOn : Bool) (db : DB) : ActionOut :=
  if jsFalsyId owner then
    (db, .ok unauthorized)
  else
    ({ db with bookmarks := db.bookmarks.map (fun b =>
        if b.id == id then
          { b with flagged := if flaggedOn then some now else none }
        else b) },
     .ok { success := true })

def updateImportance (owner : Option Nat) (id : Nat) (importance : Int)
    (db : DB) : ActionOut :=
  if jsFalsyId owner then
    (db, .ok unauthorized)
  else
    ({ db with bookmarks := db.bookmarks.map (fun b =>
        if b.id == id then { b with importance := importance } else b) },
     .ok { success := true })

def updateRead (now : Nat) (owner : Option Nat) (id : Nat) (readOn : Bool)
    (db : DB) : ActionOut :=
  if jsFalsyId owner then
    (db, .ok unauthorized)
  else
    ({ db with bookmarks := db.bookmarks.map (fun b =>
        if b.id == id then
          { b with read := if readOn then some now else none }
        else b) },
     .ok { success := true })

/-! ### `updateIncreasedOpenedCount` (lines 291-319)

Authorize, parse `id`, select `openedTimes` of the rows matching `id`
and destructure the first result (destructuring an empty result set
throws), then `update ... set({ openedTimes: opened_times ?? 0 + 1,
openedLast: new Date() })` — with **no `.where` clause**, so the write
hits every row of the bookmark table.  In JavaScript `+` binds tighter
than `??`, so the written counter is `opened_times ?? (0 + 1)`: the
stored value itself when non-null, `1` when null. -/

def updateIncreasedOpenedCount (now : Nat) (owner : Option Nat) (id : Nat)
    (db : DB) : ActionOut :=
  if jsFalsyId owner then
    (db, .ok unauthorized)
  else
    match (db.bookmarks.filter (fun b => b.id == id)).head? with
    | none => (db, .error (.thrown "TypeError: destructuring empty result"))
    | some row =>
        let newCount : Int := jsNullish row.openedTimes (0 + 1)
        ({ db with bookmarks := db.bookmarks.map (fun b =>
            { b with openedTimes := some newCount, openedLast := some now }) },
         .ok { success := true })

/-! ### Category actions (lines 320-421) -/

/-- The parsed form fields shared by `addNewCategory` and
`updateCategory` (the update additionally parses `id`).  `JSON.parse`
of `parent` and the `parent?.value` unwrapping happen at this parse
boundary. -/
structure CategoryFields where
  name : Option String
  description : Option String
  icon : Option String
  color : Option String
  parent : ParentField
  archivedOn : Bool
  publicOn : Bool
  deriving Repr, DecidableEq

def addNewCategory (slugOf : Option String → String) (now : Nat)
    (newId : Nat) (owner : Option Nat) (f : CategoryFields) (db : DB) :
    ActionOut :=
  if jsFalsyId owner then
    (db, .ok unauthorized)
  else
    ({ db with categories := db.categories ++
        [{ id := newId
           name := f.name
           slug := slugOf f.name
           description := f.description
           icon := f.icon
           color := f.color
           parent := resolveParent f.parent
           archived := if f.archivedOn then some now else none
           publicAt := if f.publicOn then some now else none
           owner := owner.getD 0
           initial := false
           created := now
           updated := now }] },
     .ok { success := true, id := some newId })

def updateCategory (slugOf : Option String → String) (now : Nat)
    (owner : Option Nat) (id : Nat) (f : CategoryFields) (db : DB) :
    ActionOut :=
  if jsFalsyId owner then
    (db, .ok unauthorized)
  else
    ({ db with categories := db.categories.map (fun c =>
        if c.id == id then
          { c with
            name := f.name
            slug := slugOf f.name
            description := f.description
            icon := f.icon
            color := f.color
            parent := resolveParent f.parent
            archived := if f.archivedOn then some now else none
            publicAt := if f.publicOn then some now else none
            updated := now }
        else c) },
     .ok { success := true })

/-- The `deleteCategory` action (lines 404-421).  NB: its unauthorized branch
returns a bare `{ success: false }` with no `error` key, and its success
branch a bare `{ success: true }`. -/
def deleteCategory (owner : Option Nat) (id : Nat) (db : DB) : ActionOut :=
  if jsFalsyId owner then
    (db, .ok { success := false })
  else
    ({ db with categories := db.categories.filter (fun c => !(c.id == id)) },
     .ok { success := true })

/-! ### `changeTheme` (lines 422-459)

Authorize (bare `{ success: false }` on failure), select the caller's
`settings`, then inside a `try`: index `[0]` (throws on an empty result),
`JSON.parse` (may throw), shallow-merge `theme` in with object spread and
write back; any throw is caught and answered with `{ success: false }`. -/

def changeTheme (p : String → Option Settings) (writeFail : Option JsErr)
    (owner : Option Nat) (theme : String) (db : DB) : ActionOut :=
  if jsFalsyId owner then
    (db, .ok { success := false })
  else
    let o := owner.getD 0
    match ((db.users.filter (fun u => u.id == o)).map (fun u => u.settings)).head? with
    | none => (db, .ok { success := false })
    | some col =>
        match settingsParse p col with
        | none => (db, .ok { success := false })
        | some s =>
            match writeFail with
            | some _ => (db, .ok { success := false })
            | none =>
                ({ db with users := db.users.map (fun u =>
                    if u.id == o then
                      { u with settings := .obj (mergeTheme s theme) }
                    else u) },
                 .ok { success := true })

/-! ### `storeImage` (lines 21-35)

`if (url && checkIfImageURL(url))`: fetch the bytes, store them, return
the new file id; otherwise fall through and return `undefined`.  The
fetch/arrayBuffer/storeFile pipeline is an opaque oracle
`fetchStore : Except JsErr Nat` (it runs only when the guard passes). -/

def storeImage (check : String → Bool) (fetchStore : Except JsErr Nat)
    (url : Option String) : Except JsErr (Option Nat) :=
  if jsTruthyStr url && check (url.getD "") then
    fetchStore.map some
  else
    .ok none

/-! ### `addNewBookmark` (lines 37-123) -/

/-- The form fields of `addNewBookmark` / `updateBookmark` as parsed on
lines 50-65 / 157-172.  `categoryId` is the value of
`category?.value ? category.value : category` after `JSON.parse`;
`flaggedOn` is `data.get('flagged') === 'on'` (the row stores
`new Date()` or `null`); `importance` is the `parseInt` result. -/
structure BookmarkFields where
  url : Option String
  domain : Option String
  title : Option String
  description : Option String
  author : Option String
  contentText : Option String
  contentHtml : Option String
  contentType : Option String
  contentPublishedDate : Option String
  mainImageUrl : Option String
  iconUrl : Option String
  note : Option String
  importance : Int
  flaggedOn : Bool
  categoryId : Int
  deriving Repr, DecidableEq

/-- Outcomes of the opaque calls `addNewBookmark` makes, in source
order.  `formData` is `await request.formData()` (line 47, **outside**
the `try`); `fields` covers the `data.get`/`JSON.parse` block (lines
50-65, inside the `try`); `tagIds` is `prepareTags` (line 67);
`insertId` is the id the insert's `returning()` row carries (`0` is the
falsy id that triggers the `!bookmark.id` branch); `joinFail = some
(k, e)` means the `Promise.all` of join inserts rejected with `e` after
`k` of them landed; `mainStore`/`iconStore` feed `storeImage`;
`patchFail` is a throw of the final image `update`. -/
structure AddBookmarkEnv where
  now : Nat
  formData : Except JsErr Unit
  fields : Except JsErr BookmarkFields
  tagIds : Except JsErr (List Nat)
  insertId : Except JsErr Nat
  joinFail : Option (Nat × JsErr)
  mainStore : Except JsErr Nat
  iconStore : Except JsErr Nat
  patchFail : Option JsErr
  check : String → Bool

/-- The bookmark row the insert on line 88 stores and returns: the
parsed fields plus the generated id; the columns `bookmarkData` does not
mention (`mainImageId`, `iconId`, `read`, `openedTimes`, `openedLast`)
take their schema default, null. -/
def mkBookmarkRow (now : Nat) (owner : Nat) (f : BookmarkFields)
    (newId : Nat) : BookmarkRow :=
  { id := newId
    ownerId := owner
    url := f.url
    author := f.author
    categoryId := f.categoryId
    title := f.title
    contentHtml := f.contentHtml
    contentPublishedDate := f.contentPublishedDate
    contentText := f.contentText
    contentType := f.contentType
    description := f.description
    domain := f.domain
    flagged := if f.flaggedOn then some now else none
    iconUrl := f.iconUrl
    importance := f.importance
    mainImageUrl := f.mainImageUrl
    note := f.note
    mainImageId := none
    iconId := none
    read := none
    openedTimes := none
    openedLast := none }

/-- The image patch on lines 106-114 / 214-222: if either archival
returned an id, update the matching row; a `set` value that is
`undefined` leaves its column alone. -/
def applyImagePatch (bookmarkId : Nat) (mainImageId iconId : Option Nat)
    (db : DB) : DB :=
  { db with bookmarks := db.bookmarks.map (fun b =>
      if b.id == bookmarkId then
        { b with
          mainImageId := patchVal mainImageId b.mainImageId
          iconId := patchVal iconId b.iconId }
      else b) }

/-- The body of the `try` block of `addNewBookmark` (lines 49-119). -/
def addNewBookmarkBody (env : AddBookmarkEnv) (owner : Nat) (db : DB) :
    ActionOut :=
  match env.fields with
  | .error e => (db, .error e)
  | .ok f =>
  match env.tagIds with
  | .error e => (db, .error e)
  | .ok tagIds =>
  match env.insertId with
  | .error e => (db, .error e)
  | .ok newId =>
  let row := mkBookmarkRow env.now owner f newId
  let db1 := { db with bookmarks := db.bookmarks ++ [row] }
  if newId == 0 then
    (db1, .ok (handlePBError (.thrown "missing bookmark id")))
  else
    match env.joinFail with
    | some (k, e) =>
        ({ db1 with bookmarksToTags := db1.bookmarksToTags ++
            (tagIds.take k).map (fun t => { bookmarkId := newId, tagId := t }) },
         .error e)
    | none =>
    let db2 :=
      { db1 with bookmarksToTags := db1.bookmarksToTags ++
          tagIds.map (fun t => { bookmarkId := newId, tagId := t }) }
    match storeImage env.check env.mainStore f.mainImageUrl with
    | .error e => (db2, .error e)
    | .ok mainImageId =>
    match storeImage env.check env.iconStore f.iconUrl with
    | .error e => (db2, .error e)
    | .ok iconId =>
    if mainImageId.isSome || iconId.isSome then
      match env.patchFail with
      | some e => (db2, .error e)
      | none =>
          (applyImagePatch newId mainImageId iconId db2,
           .ok { success := true, bookmark := some row })
    else
      (db2, .ok { success := true, bookmark := some row })

/-- The `addNewBookmark` action: authorize, read the form data (outside the `try`,
so its failure propagates), then run the body; any throw inside the
`try` is caught on line 120 and answered with `handlePBError`. -/
def addNewBookmark (env : AddBookmarkEnv) (owner : Option Nat) (db : DB) :
    ActionOut :=
  if jsFalsyId owner then
    (db, .ok unauthorized)
  else
    match env.formData with
    | .error e => (db, .error e)
    | .ok _ =>
        match addNewBookmarkBody env (owner.getD 0) db with
        | (db1, .ok r) => (db1, .ok r)
        | (db1, .error e) => (db1, .ok (handlePBError e))

/-! ### `updateBookmark` (lines 144-228)

Same parse block as the create, keyed by `id`, with **no** `try`/`catch`:
every throw propagates.  The `set` object `bookmarkData` uses the keys
`category`, `tags` and `owner`, which name no column of
`bookmarkSchema` (its columns are `categoryId` and `ownerId`, and tags
live in the join table), so drizzle ignores them and the update leaves
`categoryId`/`ownerId` untouched.  `const [bookmark] = ...returning()`
leaves `bookmark` undefined when no row matched; the join-insert `map`
callback and the image patch both read `bookmark.id` and throw a
`TypeError` in that case (the `map` callback only runs when `tagIds` is
non-empty). -/

/-- The column writes of the `updateBookmark` `set` (lines 176-198),
applied to a matched row. -/
def updBookmarkRow (now : Nat) (f : BookmarkFields) (b : BookmarkRow) :
    BookmarkRow :=
  { b with
    url := f.url
    author := f.author
    title := f.title
    contentHtml := f.contentHtml
    contentPublishedDate := f.contentPublishedDate
    contentText := f.contentText
    contentType := f.contentType
    description := f.description
    domain := f.domain
    flagged := if f.flaggedOn then some now else none
    iconUrl := f.iconUrl
    importance := f.importance
    mainImageUrl := f.mainImageUrl
    note := f.note }

/-- Outcomes of the opaque calls `updateBookmark` makes, in source
order; the roles are as in `AddBookmarkEnv`, with `id` the `parseInt`
result of line 156. -/
structure UpdateBookmarkEnv where
  now : Nat
  formData : Except JsErr Unit
  id : Nat
  fields : Except JsErr BookmarkFields
  tagIds : Except JsErr (List Nat)
  joinFail : Option (Nat × JsErr)
  mainStore : Except JsErr Nat
  iconStore : Except JsErr Nat
  patchFail : Option JsErr
  check : String → Bool

/-- The continuation of `updateBookmark` after the
`const [bookmark] = ...returning()` destructuring (lines 202-227):
`bOpt` is the destructured row (undefined when the update matched no
row) and `db1` the state the row update left behind. -/
def updateBookmarkTail (env : UpdateBookmarkEnv) (f : BookmarkFields)
    (tagIds : List Nat) (bOpt : Option BookmarkRow) (db1 : DB) : ActionOut :=
  match bOpt with
  | none =>
      if tagIds.isEmpty then
        match storeImage env.check env.mainStore f.mainImageUrl with
        | .error e => (db1, .error e)
        | .ok mainImageId =>
        match storeImage env.check env.iconStore f.iconUrl with
        | .error e => (db1, .error e)
        | .ok iconId =>
        if mainImageId.isSome || iconId.isSome then
          (db1, .error (.thrown "TypeError: bookmark undefined"))
        else
          (db1, .ok { success := true, bookmark := none })
      else
        (db1, .error (.thrown "TypeError: bookmark undefined"))
  | some b =>
      match env.joinFail with
      | some (k, e) =>
          ({ db1 with bookmarksToTags := db1.bookmarksToTags ++
              (tagIds.take k).map (fun t => { bookmarkId := b.id, tagId := t }) },
           .error e)
      | none =>
      let db2 : DB :=
        { db1 with bookmarksToTags := db1.bookmarksToTags ++
            tagIds.map (fun t => { bookmarkId := b.id, tagId := t }) }
      match storeImage env.check env.mainStore f.mainImageUrl with
      | .error e => (db2, .error e)
      | .ok mainImageId =>
      match storeImage env.check env.iconStore f.iconUrl with
      | .error e => (db2, .error e)
      | .ok iconId =>
      if mainImageId.isSome || iconId.isSome then
        match env.patchFail with
        | some e => (db2, .error e)
        | none =>
            (applyImagePatch b.id mainImageId iconId db2,
             .ok { success := true, bookmark := some b })
      else
        (db2, .ok { success := true, bookmark := some b })

def updateBookmark (env : UpdateBookmarkEnv) (owner : Option Nat)
    (db : DB) : ActionOut :=
  if jsFalsyId owner then
    (db, .ok unauthorized)
  else
    match env.formData with
    | .error e => (db, .error e)
    | .ok _ =>
    match env.fields with
    | .error e => (db, .error e)
    | .ok f =>
    match env.tagIds with
    | .error e => (db, .error e)
    | .ok tagIds =>
    let db1 : DB :=
      { db with bookmarks := db.bookmarks.map (fun b =>
          if b.id == env.id then updBookmarkRow env.now f b else b) }
    updateBookmarkTail env f tagIds
      ((db1.bookmarks.filter (fun b => b.id == env.id)).head?) db1

/-! ### Helpers for stating properties, and concrete fixtures -/

/-- The response of an action when it returned normally. -/
def respOf (a : ActionOut) : Option Response :=
  match a.2 with
  | .ok r => some r
  | .error _ => none

/-- Whether an action returned normally (no exception escaped). -/
def isOkB : Except JsErr Response → Bool
  | .ok _ => true
  | .error _ => false

/-- A bookmark row with all-default column values, used to build
concrete database states. -/
def row0 : BookmarkRow :=
  { id := 0, ownerId := 0, url := none, author := none, categoryId := 0,
    title := none, contentHtml := none, contentPublishedDate := none,
    contentText := none, contentType := none, description := none,
    domain := none, flagged := none, iconUrl := none, importance := 0,
    mainImageUrl := none, note := none, mainImageId := none,
    iconId := none, read := none, openedTimes := none, openedLast := none }

/-- A category row with all-default column values. -/
def cat0 : CategoryRow :=
  { id := 0, name := none, slug := "", description := none, icon := none,
    color := none, parent := none, archived := none, publicAt := none,
    owner := 0, initial := false, created := 0, updated := 0 }

/-- An all-empty form-field record for the bookmark actions. -/
def fields0 : BookmarkFields :=
  { url := none, domain := none, title := none, description := none,
    author := none, contentText := none, contentHtml := none,
    contentType := none, contentPublishedDate := none,
    mainImageUrl := none, iconUrl := none, note := none, importance := 0,
    flaggedOn := false, categoryId := 0 }

/-- An all-empty form-field record for the category actions. -/
def catFields0 : CategoryFields :=
  { name := some "n", description := none, icon := none, color := none,
    parent := .nullv, archivedOn := false, publicOn := false }

/-- The empty database. -/
def db0 : DB :=
  { bookmarks := [], bookmarksToTags := [], categories := [], users := [] }

/-- A database holding one bookmark (id 1) whose opened counter is 5. -/
def dbOpened5 : DB :=
  { db0 with bookmarks := [{ row0 with id := 1, openedTimes := some 5 }] }

/-- A database holding two bookmarks, ids 1 and 2, owned by two
different users. -/
def dbTwo : DB :=
  { db0 with bookmarks :=
      [{ row0 with id := 1, ownerId := 7, openedTimes := some 5 },
       { row0 with id := 2, ownerId := 99, openedTimes := some 40 }] }

/-! ### C1 — the opened-count write for a stored count of 5 -/

/-- C1 counterexample.  The claim says that with a stored `openedTimes`
of 5 the value written is 1.  On the code, `opened_times ?? 0 + 1`
parses as `opened_times ?? (0 + 1)` (JS `+` binds tighter than `??`),
so a stored 5 is written back as 5 — not 1, and not 6. -/
theorem claim_C1_counterexample :
    (updateIncreasedOpenedCount 100 (some 7) 1 dbOpened5).1.bookmarks.map
        (fun b => b.openedTimes) = [some 5] ∧
      some (5 : Int) ≠ some (1 : Int) ∧ some (5 : Int) ≠ some (6 : Int) := by
  refine ⟨rfl, by decide, by decide⟩

/-- C1 (amended): for an authenticated owner, when the stored
`openedTimes` of the identified bookmark is a non-null `v`, the value
written back is `v` itself — the counter is never incremented — because
`opened_times ?? 0 + 1` evaluates to the stored value whenever it is
non-null (`0 + 1` is only the null default). -/
theorem claim_C1 (now : Nat) (owner : Option Nat) (id : Nat) (db : DB)
    (row : BookmarkRow) (v : Int)
    (hAuth : jsFalsyId owner = false)
    (hRow : (db.bookmarks.filter (fun b => b.id == id)).head? = some row)
    (hVal : row.openedTimes = some v) :
    (updateIncreasedOpenedCount now owner id db).1.bookmarks.map
        (fun b => b.openedTimes) = db.bookmarks.map (fun _ => some v) ∧
      respOf (updateIncreasedOpenedCount now owner id db)
        = some { success := true } := by
  unfold updateIncreasedOpenedCount
  rw [hAuth, hRow]
  simp [respOf, List.map_map, Function.comp_def, jsNullish, hVal,
    List.map_const']

/-- C1 witness: the amended statement evaluated on `dbOpened5`. -/
theorem claim_C1_witness :
    (updateIncreasedOpenedCount 100 (some 7) 1 dbOpened5).1.bookmarks.map
        (fun b => b.openedTimes)
      = dbOpened5.bookmarks.map (fun _ => some (5 : Int)) ∧
    respOf (updateIncreasedOpenedCount 100 (some 7) 1 dbOpened5)
      = some { success := true } :=
  claim_C1 100 (some 7) 1 dbOpened5 { row0 with id := 1, openedTimes := some 5 }
    5 (by decide) (by decide) (by decide)

/-! ### C2 — the opened-count update has no row filter -/

/-- C2: for an authenticated owner, once the counter select has
succeeded, the `update` that writes `openedTimes`/`openedLast` carries
no `.where` clause, so every row of the bookmark table — not only the
row whose id was parsed — is rewritten with the new counter and
timestamp. -/
theorem claim_C2 (now : Nat) (owner : Option Nat) (id : Nat) (db : DB)
    (row : BookmarkRow)
    (hAuth : jsFalsyId owner = false)
    (hRow : (db.bookmarks.filter (fun b => b.id == id)).head? = some row) :
    (updateIncreasedOpenedCount now owner id db).1.bookmarks
      = db.bookmarks.map (fun b =>
          { b with openedTimes := some (jsNullish row.openedTimes (0 + 1)),
                   openedLast := some now }) := by
  unfold updateIncreasedOpenedCount
  rw [hAuth, hRow]
  simp [jsNullish]

/-- C2 witness: on a two-bookmark database, asking to bump bookmark 1
rewrites the row of bookmark 2 as well. -/
theorem claim_C2_witness :
    (updateIncreasedOpenedCount 100 (some 7) 1 dbTwo).1.bookmarks
      = dbTwo.bookmarks.map (fun b =>
          { b with openedTimes := some (jsNullish (some 5) (0 + 1)),
                   openedLast := some 100 }) :=
  claim_C2 100 (some 7) 1 dbTwo
    { row0 with id := 1, ownerId := 7, openedTimes := some 5 }
    (by decide) (by decide)

/-! ### C3 — responses of unauthenticated invocations -/

/-- C3 counterexample.  The claim says every action answers an
unauthenticated call with `{success:false, error:'Unauthorized'}`; but
`deleteCategory` (and likewise `changeTheme`) returns a bare
`{ success: false }` whose `error` field is absent. -/
theorem claim_C3_counterexample :
    respOf (deleteCategory none 1 db0) = some { success := false } ∧
      (({ success := false } : Response)).error = none ∧
      ({ success := false } : Response) ≠ unauthorized := by
  refine ⟨rfl, rfl, by decide⟩

/-- C3 (amended): every action invoked without an authenticated owner
returns `success:false` and performs no database mutation; all of them
except `deleteCategory` and `changeTheme` also carry
`error:'Unauthorized'`, while those two return a bare
`{ success: false }` with no `error` field. -/
theorem claim_C3 :
    ∀ (db : DB) (now id newId : Nat) (flaggedOn readOn : Bool)
      (importance : Int) (slugOf : Option String → String)
      (cf : CategoryFields) (env : AddBookmarkEnv)
      (uenv : UpdateBookmarkEnv) (p : String → Option Settings)
      (writeFail : Option JsErr) (theme : String),
      addNewBookmark env none db = (db, .ok unauthorized) ∧
      deleteBookmark none id db = (db, .ok unauthorized) ∧
      updateBookmark uenv none db = (db, .ok unauthorized) ∧
      updateFlagged now none id flaggedOn db = (db, .ok unauthorized) ∧
      updateImportance none id importance db = (db, .ok unauthorized) ∧
      updateRead now none id readOn db = (db, .ok unauthorized) ∧
      updateIncreasedOpenedCount now none id db = (db, .ok unauthorized) ∧
      addNewCategory slugOf now newId none cf db = (db, .ok unauthorized) ∧
      updateCategory slugOf now none id cf db = (db, .ok unauthorized) ∧
      deleteCategory none id db = (db, .ok { success := false }) ∧
      changeTheme p writeFail none theme db = (db, .ok { success := false }) ∧
      unauthorized.success = false ∧
      unauthorized.error = some "Unauthorized" ∧
      ({ success := false } : Response).error = none := by
  intro db now id newId flaggedOn readOn importance slugOf cf env uenv p
    writeFail theme
  exact ⟨rfl, rfl, rfl, rfl, rfl, rfl, rfl, rfl, rfl, rfl, rfl, rfl, rfl, rfl⟩

/-! ### Reduction lemmas for `addNewBookmark` -/

/-- The tag-join table `applyImagePatch` leaves untouched. -/
theorem applyImagePatch_bookmarksToTags (i : Nat) (m ic : Option Nat)
    (d : DB) : (applyImagePatch i m ic d).bookmarksToTags = d.bookmarksToTags :=
  rfl

/-- With an authenticated owner and a readable form, the database state
`addNewBookmark` leaves behind is the one its `try`-body computed (the
`catch` only rewrites the response). -/
theorem addNewBookmark_state (env : AddBookmarkEnv) (owner : Option Nat)
    (db : DB) (hAuth : jsFalsyId owner = false)
    (hForm : env.formData = .ok ()) :
    (addNewBookmark env owner db).1
      = (addNewBookmarkBody env (owner.getD 0) db).1 := by
  unfold addNewBookmark
  rw [hAuth, hForm]
  rcases h : addNewBookmarkBody env (owner.getD 0) db with ⟨db1, r⟩
  cases r <;> simp [h]

/-- On the success path of the insert, the `try`-body of
`addNewBookmark` appends exactly one join row per resolved tag id,
whatever the image archival and patch oracles do. -/
theorem addNewBookmarkBody_bookmarksToTags (env : AddBookmarkEnv)
    (owner0 : Nat) (db : DB) (f : BookmarkFields) (tagIds : List Nat)
    (newId : Nat)
    (hFields : env.fields = .ok f)
    (hTags : env.tagIds = .ok tagIds)
    (hIns : env.insertId = .ok newId)
    (hId : newId ≠ 0)
    (hJoin : env.joinFail = none) :
    (addNewBookmarkBody env owner0 db).1.bookmarksToTags
      = db.bookmarksToTags
          ++ tagIds.map (fun t => { bookmarkId := newId, tagId := t }) := by
  have h0 : (newId == 0) = false := by simpa using hId
  unfold addNewBookmarkBody
  rw [hFields, hTags, hIns, hJoin]
  simp only [h0, Bool.false_eq_true, if_false]
  cases hm : storeImage env.check env.mainStore f.mainImageUrl with
  | error e => simp [hm]
  | ok mi =>
      cases hi : storeImage env.check env.iconStore f.iconUrl with
      | error e => simp [hm, hi]
      | ok ic =>
          by_cases hs : (mi.isSome || ic.isSome) = true
          · cases hp : env.patchFail <;>
              simp [hm, hi, hs, hp, applyImagePatch_bookmarksToTags]
          · simp [hm, hi, hs]

/-! ### C4 — one join row per distinct tag -/

/-- C4: for an authenticated owner, when tag resolution yields a list of
`N` distinct tag ids and the bookmark insert succeeds (and the
concurrent join inserts do not reject), exactly `N` join rows are
appended, each pairing the new bookmark id with one of the tag ids. -/
theorem claim_C4 (env : AddBookmarkEnv) (owner : Option Nat) (db : DB)
    (f : BookmarkFields) (tagIds : List Nat) (newId : Nat)
    (hAuth : jsFalsyId owner = false)
    (hForm : env.formData = .ok ())
    (hFields : env.fields = .ok f)
    (hTags : env.tagIds = .ok tagIds)
    (hNodup : tagIds.Nodup)
    (hIns : env.insertId = .ok newId)
    (hId : newId ≠ 0)
    (hJoin : env.joinFail = none) :
    (addNewBookmark env owner db).1.bookmarksToTags
      = db.bookmarksToTags
          ++ tagIds.map (fun t => { bookmarkId := newId, tagId := t }) ∧
    (addNewBookmark env owner db).1.bookmarksToTags.length
      = db.bookmarksToTags.length + tagIds.length ∧
    (tagIds.map
        (fun t => ({ bookmarkId := newId, tagId := t } : BookmarkToTagRow))).Nodup := by
  have hmain := addNewBookmarkBody_bookmarksToTags env (owner.getD 0) db f
    tagIds newId hFields hTags hIns hId hJoin
  rw [addNewBookmark_state env owner db hAuth hForm]
  refine ⟨hmain, ?_, ?_⟩
  · rw [hmain]; simp
  · exact hNodup.map (fun a b h => by simpa using h)

/-- A success-path environment for `addNewBookmark`: two distinct tags,
generated bookmark id 42, no URL passes the image check. -/
def envAddOk : AddBookmarkEnv :=
  { now := 100, formData := .ok (), fields := .ok fields0,
    tagIds := .ok [10, 11], insertId := .ok 42, joinFail := none,
    mainStore := .error (.thrown "unused"),
    iconStore := .error (.thrown "unused"), patchFail := none,
    check := fun _ => false }

/-- C4 witness: creating a bookmark with the two distinct tags 10 and 11
appends exactly the two join rows (42,10) and (42,11). -/
theorem claim_C4_witness :
    (addNewBookmark envAddOk (some 7) db0).1.bookmarksToTags
      = db0.bookmarksToTags
          ++ [10, 11].map (fun t => { bookmarkId := 42, tagId := t }) ∧
    (addNewBookmark envAddOk (some 7) db0).1.bookmarksToTags.length
      = db0.bookmarksToTags.length + [10, 11].length ∧
    ([10, 11].map
        (fun t => ({ bookmarkId := 42, tagId := t } : BookmarkToTagRow))).Nodup :=
  claim_C4 envAddOk (some 7) db0 fields0 [10, 11] 42 (by decide) rfl rfl rfl
    (by decide) rfl (by decide) rfl

/-! ### C6 — the `try`/`catch` of `addNewBookmark` spans the whole body -/

/-- An environment whose `Promise.all` of tag-join inserts rejects. -/
def envJoinBoom : AddBookmarkEnv :=
  { envAddOk with joinFail := some (0, .thrown "joinfail") }

/-- C6 counterexample.  The claim says an error thrown during tag-join
insertion is not caught and propagates; but the `try` block of
`addNewBookmark` spans lines 49-119, which include the join inserts and
the image patch, so a join-insert rejection is caught on line 120 and
answered with the `handlePBError` response — the action returns
normally. -/
theorem claim_C6_counterexample :
    respOf (addNewBookmark envJoinBoom (some 7) db0)
      = some (handlePBError (.thrown "joinfail")) ∧
    isOkB (addNewBookmark envJoinBoom (some 7) db0).2 = true :=
  ⟨rfl, rfl⟩

/-- C6 (amended): for an authenticated owner, any error thrown inside
the `try` block — during field parsing, tag resolution, the initial
insert, the tag-join inserts, image archival or the image patch — is
caught and converted to the `handlePBError` failure response; only a
failure of `request.formData()` itself (line 47, outside the `try`)
propagates as an unhandled request failure. -/
theorem claim_C6 (env : AddBookmarkEnv) (owner : Option Nat) (db : DB)
    (hForm : env.formData = .ok ()) :
    isOkB (addNewBookmark env owner db).2 = true := by
  unfold addNewBookmark
  by_cases hAuth : jsFalsyId owner = true
  · simp [hAuth, isOkB]
  · simp only [Bool.not_eq_true] at hAuth
    rw [hAuth, hForm]
    rcases h : addNewBookmarkBody env (owner.getD 0) db with ⟨db1, r⟩
    cases r <;> simp [h, isOkB]

/-- C6 witness: the amended statement evaluated on the environment whose
join insert rejects — the action still returns normally. -/
theorem claim_C6_witness :
    isOkB (addNewBookmark envJoinBoom (some 7) db0).2 = true :=
  claim_C6 envJoinBoom (some 7) db0 rfl

/-! ### C7 — a non-image main image URL leaves the image reference null -/

/-- C7: for an authenticated owner on the success path, when neither the
main image URL nor the icon URL passes the `url && checkIfImageURL(url)`
guard, `storeImage` returns no id for each, no image patch runs, and the
new bookmark row keeps `mainImageId` null. -/
theorem claim_C7 (env : AddBookmarkEnv) (owner : Option Nat) (db : DB)
    (f : BookmarkFields) (tagIds : List Nat) (newId : Nat)
    (hAuth : jsFalsyId owner = false)
    (hForm : env.formData = .ok ())
    (hFields : env.fields = .ok f)
    (hTags : env.tagIds = .ok tagIds)
    (hIns : env.insertId = .ok newId)
    (hId : newId ≠ 0)
    (hJoin : env.joinFail = none)
    (hMain : (jsTruthyStr f.mainImageUrl
        && env.check (f.mainImageUrl.getD "")) = false)
    (hIcon : (jsTruthyStr f.iconUrl && env.check (f.iconUrl.getD "")) = false) :
    storeImage env.check env.mainStore f.mainImageUrl = .ok none ∧
    (addNewBookmark env owner db).1.bookmarks
      = db.bookmarks ++ [mkBookmarkRow env.now (owner.getD 0) f newId] ∧
    (mkBookmarkRow env.now (owner.getD 0) f newId).mainImageId = none ∧
    respOf (addNewBookmark env owner db)
      = some { success := true,
               bookmark := some (mkBookmarkRow env.now (owner.getD 0) f newId) } := by
  have h0 : (newId == 0) = false := by simpa using hId
  have hsm : storeImage env.check env.mainStore f.mainImageUrl = .ok none := by
    unfold storeImage; rw [hMain]; rfl
  have hsi : storeImage env.check env.iconStore f.iconUrl = .ok none := by
    unfold storeImage; rw [hIcon]; rfl
  have hbody : addNewBookmarkBody env (owner.getD 0) db
      = ({ db with
            bookmarks := db.bookmarks
              ++ [mkBookmarkRow env.now (owner.getD 0) f newId],
            bookmarksToTags := db.bookmarksToTags
              ++ tagIds.map (fun t => { bookmarkId := newId, tagId := t }) },
         .ok { success := true,
               bookmark := some (mkBookmarkRow env.now (owner.getD 0) f newId) }) := by
    unfold addNewBookmarkBody
    rw [hFields, hTags, hIns, hJoin]
    simp only [h0, Bool.false_eq_true, if_false]
    rw [hsm, hsi]
    simp
  have hall : addNewBookmark env owner db
      = ({ db with
            bookmarks := db.bookmarks
              ++ [mkBookmarkRow env.now (owner.getD 0) f newId],
            bookmarksToTags := db.bookmarksToTags
              ++ tagIds.map (fun t => { bookmarkId := newId, tagId := t }) },
         .ok { success := true,
               bookmark := some (mkBookmarkRow env.now (owner.getD 0) f newId) }) := by
    unfold addNewBookmark
    rw [hAuth, hForm, hbody]
    rfl
  exact ⟨hsm, by rw [hall], rfl, by rw [hall]; rfl⟩

/-- A success-path environment whose main image URL is present but is
not an image (the check rejects every URL), and whose icon URL is
absent. -/
def envPdfImage : AddBookmarkEnv :=
  { envAddOk with
    fields := .ok { fields0 with mainImageUrl := some "https://e/x.pdf" } }

/-- C7 witness: the statement evaluated with a `.pdf` main image URL on
the empty database. -/
theorem claim_C7_witness :
    storeImage envPdfImage.check envPdfImage.mainStore
        (some "https://e/x.pdf") = .ok none ∧
    (addNewBookmark envPdfImage (some 7) db0).1.bookmarks
      = db0.bookmarks
          ++ [mkBookmarkRow 100 ((some 7 : Option Nat).getD 0)
                { fields0 with mainImageUrl := some "https://e/x.pdf" } 42] ∧
    (mkBookmarkRow 100 ((some 7 : Option Nat).getD 0)
        { fields0 with mainImageUrl := some "https://e/x.pdf" } 42).mainImageId
      = none ∧
    respOf (addNewBookmark envPdfImage (some 7) db0)
      = some { success := true,
               bookmark := some (mkBookmarkRow 100 ((some 7 : Option Nat).getD 0)
                   { fields0 with mainImageUrl := some "https://e/x.pdf" } 42) } :=
  claim_C7 envPdfImage (some 7) db0
    { fields0 with mainImageUrl := some "https://e/x.pdf" } [10, 11] 42
    (by decide) rfl rfl rfl rfl (by decide) rfl rfl rfl

/-! ### C5 — bookmark updates never remove join rows -/

/-- Whatever the destructured row and the image oracles, the
continuation of `updateBookmark` only appends to the join table. -/
theorem updateBookmarkTail_extends (env : UpdateBookmarkEnv)
    (f : BookmarkFields) (tagIds : List Nat) (bOpt : Option BookmarkRow)
    (db1 : DB) :
    ∃ added, (updateBookmarkTail env f tagIds bOpt db1).1.bookmarksToTags
      = db1.bookmarksToTags ++ added := by
  unfold updateBookmarkTail
  cases bOpt <;>
    repeat'
      first
        | split
        | exact ⟨_, rfl⟩
        | exact ⟨[], by simp⟩

/-- C5: on every control path of `updateBookmark` — every owner, every
oracle outcome, every submitted tag set, disjoint from the stored one or
not — the bookmark-to-tag table only ever grows by a suffix: no join row
is deleted, so every tag association that existed before the update
still exists afterwards (tag removal is not supported). -/
theorem claim_C5 (env : UpdateBookmarkEnv) (owner : Option Nat) (db : DB) :
    ∃ added, (updateBookmark env owner db).1.bookmarksToTags
      = db.bookmarksToTags ++ added := by
  unfold updateBookmark
  repeat'
    first
      | split
      | exact updateBookmarkTail_extends _ _ _ _ _
      | exact ⟨[], by simp⟩

/-! ### C8 — theme change is a shallow, non-destructive merge -/

/-- Rewriting every `"theme"` entry does not disturb lookups of other
keys. -/
theorem lookupKey_map_setTheme (s : Settings) (t k : String)
    (hk : k ≠ "theme") :
    lookupKey (s.map (fun p => if p.1 = "theme" then (p.1, t) else p)) k
      = lookupKey s k := by
  induction s with
  | nil => rfl
  | cons hd tl ih =>
      rcases hd with ⟨a, b⟩
      by_cases ha : a = "theme"
      · subst ha
        have hfa : (if (("theme", b) : String × String).1 = "theme"
            then ((("theme", b) : String × String).1, t)
            else (("theme", b) : String × String)) = ("theme", t) := if_pos rfl
        rw [List.map_cons, hfa]
        show (if "theme" = k then some t else _) = _
        rw [if_neg (Ne.symm hk)]
        show _ = if "theme" = k then some b else lookupKey tl k
        rw [if_neg (Ne.symm hk), ih]
      · have hfa : (if ((a, b) : String × String).1 = "theme"
            then (((a, b) : String × String).1, t)
            else ((a, b) : String × String)) = (a, b) := if_neg ha
        rw [List.map_cons, hfa]
        show (if a = k then some b else _) = if a = k then some b else _
        by_cases hak : a = k
        · rw [if_pos hak, if_pos hak]
        · rw [if_neg hak, if_neg hak, ih]

/-- Rewriting every `"theme"` entry makes the `"theme"` lookup return
the new value, provided the key was present. -/
theorem lookupKey_map_setTheme_theme (s : Settings) (t : String)
    (h : (lookupKey s "theme").isSome = true) :
    lookupKey (s.map (fun p => if p.1 = "theme" then (p.1, t) else p)) "theme"
      = some t := by
  induction s with
  | nil => simp [lookupKey] at h
  | cons hd tl ih =>
      rcases hd with ⟨a, b⟩
      by_cases ha : a = "theme"
      · subst ha
        have hfa : (if (("theme", b) : String × String).1 = "theme"
            then ((("theme", b) : String × String).1, t)
            else (("theme", b) : String × String)) = ("theme", t) := if_pos rfl
        rw [List.map_cons, hfa]
        show (if "theme" = "theme" then some t else _) = some t
        rw [if_pos rfl]
      · simp only [lookupKey, if_neg ha] at h
        have hfa : (if ((a, b) : String × String).1 = "theme"
            then (((a, b) : String × String).1, t)
            else ((a, b) : String × String)) = (a, b) := if_neg ha
        rw [List.map_cons, hfa]
        show (if a = "theme" then some b else _) = some t
        rw [if_neg ha]
        exact ih h

/-- Lookup distributes over append, preferring the left list. -/
theorem lookupKey_append (s s2 : Settings) (k : String) :
    lookupKey (s ++ s2) k
      = match lookupKey s k with
        | some v => some v
        | none => lookupKey s2 k := by
  induction s with
  | nil => rfl
  | cons hd tl ih =>
      rcases hd with ⟨a, b⟩
      by_cases h : a = k <;> simp [lookupKey, h, ih]

/-- The JS spread `{...obj, theme}`: the `theme` key reads back the new
value and every other key reads back exactly what it held before. -/
theorem lookupKey_mergeTheme (s : Settings) (t : String) :
    lookupKey (mergeTheme s t)
      = fun k => if k = "theme" then some t else lookupKey s k := by
  funext k
  unfold mergeTheme
  by_cases hth : (lookupKey s "theme").isSome = true
  · rw [if_pos hth]
    by_cases hk : k = "theme"
    · subst hk
      rw [if_pos rfl]
      exact lookupKey_map_setTheme_theme s t hth
    · rw [if_neg hk]
      exact lookupKey_map_setTheme s t k hk
  · rw [if_neg hth]
    have hnone : lookupKey s "theme" = none :=
      Option.not_isSome_iff_eq_none.mp hth
    by_cases hk : k = "theme"
    · subst hk
      rw [if_pos rfl, lookupKey_append, hnone]
      simp [lookupKey]
    · rw [if_neg hk, lookupKey_append]
      have h2 : lookupKey [("theme", t)] k = none := by
        simp [lookupKey, Ne.symm hk]
      rw [h2]
      cases lookupKey s k <;> rfl

/-- C8: for an authenticated owner whose stored settings parse, the
settings value written back is the shallow merge of the parsed object
with the `theme` key — `theme` reads back the submitted value and every
other key keeps its previous value — and the action answers
`{ success: true }`; when the stored settings do not parse, or the
write itself throws, nothing is (successfully) written and the action
answers the bare failure `{ success: false }`. -/
theorem claim_C8 (p : String → Option Settings)
    (o : Nat) (theme : String) (db : DB) (str : String) (s : Settings)
    (ho : (o == 0) = false)
    (hUser : ((db.users.filter (fun u => u.id == o)).map
        (fun u => u.settings)).head? = some (.raw str))
    (hParse : p str = some s) :
    (changeTheme p none (some o) theme db).1.users
      = db.users.map (fun u =>
          if u.id == o then
            { u with settings := .obj (mergeTheme s theme) }
          else u) ∧
    lookupKey (mergeTheme s theme)
      = (fun k => if k = "theme" then some theme else lookupKey s k) ∧
    respOf (changeTheme p none (some o) theme db)
      = some { success := true } ∧
    (∀ (writeFail : Option JsErr) (db2 : DB) (col : SettingsCol),
        ((db2.users.filter (fun u => u.id == o)).map
            (fun u => u.settings)).head? = some col →
        settingsParse p col = none →
        changeTheme p writeFail (some o) theme db2
          = (db2, .ok { success := false })) ∧
    (∀ e : JsErr,
        changeTheme p (some e) (some o) theme db
          = (db, .ok { success := false })) := by
  have hAuth : jsFalsyId (some o) = false := by simpa [jsFalsyId] using ho
  have hred : changeTheme p none (some o) theme db
      = ({ db with users := db.users.map (fun u =>
            if u.id == o then
              { u with settings := .obj (mergeTheme s theme) }
            else u) },
         .ok { success := true }) := by
    unfold changeTheme
    rw [hAuth]
    simp only [Bool.false_eq_true, if_false, Option.getD_some]
    rw [hUser]
    simp only [settingsParse, hParse]
  refine ⟨by rw [hred], lookupKey_mergeTheme s theme, by rw [hred]; rfl,
    ?_, ?_⟩
  · intro writeFail db2 col h1 h2
    unfold changeTheme
    rw [hAuth]
    simp only [Bool.false_eq_true, if_false, Option.getD_some]
    rw [h1]
    simp only [h2]
  · intro e
    unfold changeTheme
    rw [hAuth]
    simp only [Bool.false_eq_true, if_false, Option.getD_some]
    rw [hUser]
    simp only [settingsParse, hParse]

/-- An opaque JSON parser fixture: only the text `"stored"` parses, to
the two-key object `lang=en, theme=light`. -/
def exParse : String → Option Settings :=
  fun str => if str = "stored" then some [("lang", "en"), ("theme", "light")]
             else none

/-- A database whose user 7 has parsable stored settings. -/
def dbSettings : DB :=
  { db0 with users := [{ id := 7, settings := .raw "stored" }] }

/-- A database whose user 7 has unparsable stored settings. -/
def dbSettingsBad : DB :=
  { db0 with users := [{ id := 7, settings := .raw "garbage" }] }

/-- The parsed settings object of the `exParse` fixture. -/
def exStored : Settings := [("lang", "en"), ("theme", "light")]

/-- C8 witness: changing the theme to `dark` for user 7 rewrites only
the `theme` key of the stored `lang=en, theme=light` object; the
unparsable variant answers `{ success: false }`, and so does the
variant whose settings write throws. -/
theorem claim_C8_witness :
    (changeTheme exParse none (some 7) "dark" dbSettings).1.users
      = dbSettings.users.map (fun u =>
          if u.id == 7 then
            { u with settings := SettingsCol.obj (mergeTheme exStored "dark") }
          else u) ∧
    lookupKey (mergeTheme exStored "dark")
      = (fun k => if k = "theme" then some "dark"
                  else lookupKey exStored k) ∧
    respOf (changeTheme exParse none (some 7) "dark" dbSettings)
      = some { success := true } ∧
    changeTheme exParse none (some 7) "dark" dbSettingsBad
      = (dbSettingsBad, .ok { success := false }) ∧
    changeTheme exParse (some (.thrown "write refused")) (some 7) "dark"
        dbSettings
      = (dbSettings, .ok { success := false }) := by
  have h := claim_C8 exParse 7 "dark" dbSettings "stored" exStored
    (by decide) rfl rfl
  exact ⟨h.1, h.2.1, h.2.2.1,
    h.2.2.2.1 none dbSettingsBad (.raw "garbage") rfl rfl,
    h.2.2.2.2 (.thrown "write refused")⟩

/-! ### C9 — category update never touches `owner` or `initial` -/

/-- C9: for an authenticated owner, the `updateCategory` write set
(name, slug, description, icon, color, parent, archived, public,
updated) does not include the `owner` column or the `initial` flag, so
after the update by id every category row — matched or not — still
carries its stored owner and initial values. -/
theorem claim_C9 (slugOf : Option String → String) (now : Nat)
    (owner : Option Nat) (id : Nat) (f : CategoryFields) (db : DB)
    (hAuth : jsFalsyId owner = false) :
    (updateCategory slugOf now owner id f db).1.categories.map
        (fun c => (c.owner, c.initial))
      = db.categories.map (fun c => (c.owner, c.initial)) ∧
    respOf (updateCategory slugOf now owner id f db)
      = some { success := true } := by
  unfold updateCategory
  rw [hAuth]
  simp only [Bool.false_eq_true, if_false]
  refine ⟨?_, rfl⟩
  show List.map _ (List.map _ db.categories) = _
  rw [List.map_map]
  apply List.map_congr_left
  intro c _
  by_cases hc : (c.id == id) = true
  · simp [Function.comp, hc]
  · simp [Function.comp, hc]

/-- A database holding one category, id 3, owned by user 9 with the
initial flag set. -/
def dbCat : DB :=
  { db0 with categories :=
      [{ cat0 with id := 3, owner := 9, initial := true }] }

/-- C9 witness: updating category 3 keeps its owner 9 and its initial
flag. -/
theorem claim_C9_witness :
    (updateCategory (fun _ => "slug") 100 (some 7) 3 catFields0
        dbCat).1.categories.map (fun c => (c.owner, c.initial))
      = dbCat.categories.map (fun c => (c.owner, c.initial)) ∧
    respOf (updateCategory (fun _ => "slug") 100 (some 7) 3 catFields0 dbCat)
      = some { success := true } :=
  claim_C9 (fun _ => "slug") 100 (some 7) 3 catFields0 dbCat (by decide)

/-! ### C10 — bookmark deletion has no ownership check -/

/-- C10: for every authenticated caller — whoever owns the row — and
every parsed id, `deleteBookmark` removes the bookmark rows carrying
that id and returns `{ id, success: true }`: no ownership check happens
between the authorization and the delete. -/
theorem claim_C10 (owner : Option Nat) (id : Nat) (db : DB)
    (hAuth : jsFalsyId owner = false) :
    deleteBookmark owner id db
      = ({ db with bookmarks := db.bookmarks.filter (fun b => !(b.id == id)) },
         .ok { success := true, id := some id }) := by
  unfold deleteBookmark
  rw [hAuth]
  rfl

/-- A database holding one bookmark, id 1, owned by user 99. -/
def dbForeign : DB :=
  { db0 with bookmarks := [{ row0 with id := 1, ownerId := 99 }] }

/-- C10 witness: caller 7 deletes bookmark 1 although user 99 owns it. -/
theorem claim_C10_witness :
    deleteBookmark (some 7) 1 dbForeign
      = ({ dbForeign with bookmarks :=
            dbForeign.bookmarks.filter (fun b => !(b.id == 1)) },
         .ok { success := true, id := some 1 }) :=
  claim_C10 (some 7) 1 dbForeign (by decide)

end Grimoire
